import Mathlib

set_option synthInstance.maxSize 1024

/-!
Verification of the RFM analysis engine (murshid93/RFM_Analysis).

The repository holds two Streamlit scripts, `src/Main/rfm_ui.py` and
`src/Main/rfm_adv.py`, each with a `perform_rfm_analysis(data)` function.
Both derive per-customer Recency / Frequency / Monetary metrics from a
transaction table, score each metric into quartiles with `pd.qcut`, build a
composite score, and classify customers.  This file is a shallow embedding of
those two functions and of the pandas primitives they use (`pd.qcut` with
linear-interpolation quantile edges, `pd.cut` with explicit bins,
`np.select`, groupby aggregation), together with proofs about them.

Modelling conventions:
* A dataframe cell for 'Date of Purchase' is either a raw string (as read
  from the uploaded sheet) or an already-parsed datetime, represented as a
  day count (`Cell.dt`).  `pd.to_datetime` on a date-only string yields a
  midnight timestamp, so `(now - x.max()).days` equals the difference of day
  counts when `now` is itself taken as a day count; `now` (the
  `datetime.now()` snapshot, line 19 of both files) is an explicit `Int`
  parameter of the embedding.
* Python exceptions become `Except RfmError`.  The `ValueError` raised for
  missing columns (lines 11-13 of both files) is the spec's `SchemaError`;
  the `ValueError: Bin edges must be unique` raised by `pd.qcut` when the
  interpolated quantile edges collide is modelled by
  `RfmError.binEdgesNotUnique`.
* `pandas.groupby` sorts group keys; the embedding keeps keys in first
  occurrence order instead.  No property proved below depends on the order
  of the output rows, only on per-customer values and on the underlying
  sets.
* The in-place column assignment `data['Date of Purchase'] = pd.to_datetime(...)`
  (line 16 of both files) is modelled by returning the mutated frame
  alongside the result table.
-/

/-- Error taxonomy of the engine (spec section 7).  The source raises plain
`ValueError`s; each constructor names the condition under which one is
raised.  No configuration-validation error exists anywhere in the source. -/
inductive RfmError
  | schemaError
  | parseError
  | binEdgesNotUnique
deriving DecidableEq

/-- A 'Date of Purchase' cell: either the raw string from the sheet or a
parsed datetime (day count since 1970-01-01). -/
inductive Cell
  | str (s : String)
  | dt (days : Int)
deriving DecidableEq

/-- One transaction row of the input table (columns Branch, Route, Customer,
'Date of Purchase'). -/
structure Txn where
  customer : String
  branch : String
  route : String
  date : Cell
deriving DecidableEq

/-- The input dataframe: its column-name list (`data.columns`) plus its rows.
The guard on lines 11-13 of both source files inspects only the column
list. -/
structure InFrame where
  cols : List String
  rows : List Txn
deriving DecidableEq

/-- `required_columns`, line 11 of both files. -/
def requiredColumns : List String := ["Branch", "Route", "Customer", "Date of Purchase"]

/-- Day count since 1970-01-01 of a civil date (the standard days-from-civil
computation, with truncating integer division). -/
def daysFromCivil (y m d : Int) : Int :=
  let y2 := if m ≤ 2 then y - 1 else y
  let era := (if 0 ≤ y2 then y2 else y2 - 399) / 400
  let yoe := y2 - era * 400
  let mp := (m + 9) % 12
  let doy := (153 * mp + 2) / 5 + d - 1
  let doe := yoe * 365 + yoe / 4 - yoe / 100 + doy
  era * 146097 + doe - 719468

/-- Numeric value of a nonempty decimal digit character list; `none` when
some character is not a digit.  (Python's `int(x)` on the strings this
pipeline feeds it.) -/
def digitsToNat : List Char → Option Nat
  | [] => none
  | cs =>
    if cs.all (fun ch => 48 ≤ ch.toNat ∧ ch.toNat ≤ 57) then
      some (cs.foldl (fun acc ch => acc * 10 + (ch.toNat - 48)) 0)
    else none

/-- Numeric value of a decimal digit string. -/
def strToNat (s : String) : Option Nat :=
  digitsToNat s.data

/-- Split a character list on `'-'`. -/
def splitDash : List Char → List Char → List (List Char)
  | [], acc => [acc.reverse]
  | c :: cs, acc =>
    if c = '-' then acc.reverse :: splitDash cs [] else splitDash cs (c :: acc)

/-- Parse an ISO `YYYY-MM-DD` date string to a day count (the format used in
the repository's template data); other strings fail to parse. -/
def parseYMD (s : String) : Option Int :=
  match splitDash s.data [] with
  | [ys, ms, ds] =>
    match digitsToNat ys, digitsToNat ms, digitsToNat ds with
    | some y, some m, some d => some (daysFromCivil y m d)
    | _, _, _ => none
  | _ => none

/-- `pd.to_datetime` on one cell: an already-parsed datetime passes through,
a string is parsed, an unparsable string raises (spec's `ParseError`). -/
def toDatetime : Cell → Except RfmError Int
  | .dt n => .ok n
  | .str s =>
    match parseYMD s with
    | some n => .ok n
    | none => .error .parseError

/-- Elementwise `pd.to_datetime(data['Date of Purchase'])`, line 16 of both
files: every date cell is replaced by its parsed datetime. -/
def convertRows : List Txn → Except RfmError (List Txn)
  | [] => .ok []
  | t :: ts => do
    let n ← toDatetime t.date
    let rest ← convertRows ts
    .ok ({ t with date := .dt n } :: rest)

/-- Line 16 of both files: `data['Date of Purchase'] = pd.to_datetime(...)`.
The returned frame is the caller's `data` after the in-place assignment. -/
def convertFrame (f : InFrame) : Except RfmError InFrame := do
  let rows ← convertRows f.rows
  .ok { f with rows := rows }

/-! ### Group-by aggregation (lines 19-25 of rfm_adv.py, 19-42 of rfm_ui.py) -/

/-- The converted-date value of a cell (pipeline rows always hold `.dt`). -/
def cellInt : Cell → Int
  | .dt n => n
  | .str _ => 0

/-- The transaction group of one customer. -/
def rowsFor (rows : List Txn) (c : String) : List Txn :=
  rows.filter (fun r => r.customer == c)

/-- `x.max()` over the group's purchase dates (groups formed by the pipeline
are nonempty, so the fold's base value is never returned). -/
def maxDateOf (rows : List Txn) (c : String) : Int :=
  ((rowsFor rows c).map (fun r => cellInt r.date)).foldr max 0

/-- Recency, `(now - x.max()).days` per customer (line 21 of both files). -/
def recOf (now : Int) (rows : List Txn) (c : String) : Int :=
  now - maxDateOf rows c

/-- Frequency, the group's `'Route'` count (line 22 of rfm_adv.py, line 26 of
rfm_ui.py). -/
def freqOf (rows : List Txn) (c : String) : Nat :=
  (rowsFor rows c).length

/-- Monetary proxy, the group's `'Branch'` count (line 23 of rfm_adv.py,
line 29 of rfm_ui.py) — computed independently from `freqOf`, as in the
source, although the two counts coincide numerically. -/
def monOf (rows : List Txn) (c : String) : Nat :=
  (rowsFor rows c).length

/-- `'Branch': 'first'` aggregation (line 37 of rfm_ui.py). -/
def firstBranch (rows : List Txn) (c : String) : String :=
  (((rowsFor rows c).map (fun r => r.branch)).headD "")

/-- `'Route': 'first'` aggregation (line 38 of rfm_ui.py). -/
def firstRoute (rows : List Txn) (c : String) : String :=
  (((rowsFor rows c).map (fun r => r.route)).headD "")

/-- The group keys of `data.groupby('Customer')`: the distinct customer ids
(pandas lists them sorted; the embedding keeps first-occurrence order, which
affects only row order, not per-customer values). -/
def keysOf (rows : List Txn) : List String :=
  (rows.map (fun r => r.customer)).dedup

/-- The `'Recency'` column of the per-customer rfm table, one value per
group key. -/
def recCol (now : Int) (rows : List Txn) : List Int :=
  (keysOf rows).map (fun c => recOf now rows c)

/-- The `'Frequency'` column of the per-customer rfm table. -/
def freqCol (rows : List Txn) : List Int :=
  (keysOf rows).map (fun c => ((freqOf rows c : Nat) : Int))

/-- The `'Monetary'` column of the per-customer rfm table. -/
def monCol (rows : List Txn) : List Int :=
  (keysOf rows).map (fun c => ((monOf rows c : Nat) : Int))

/-! ### `pd.qcut(column, 4, labels)` (lines 28-30 of rfm_adv.py, 45-47 of rfm_ui.py)

All three metric columns are integer-valued (day counts and transaction
counts), and the quantile probabilities of a 4-bin qcut are the quarters
0, 1/4, 2/4, 3/4, 4/4, so every quantity appearing in the numpy linear
interpolation `v_i + (p*(n-1) - i) * (v_{i+1} - v_i)` is an integer
multiple of 1/4.  The embedding therefore stores quantiles scaled by 4
(`quantile4 s k` is four times the `k/4`-quantile of `s`), which keeps the
whole computation in `Int` without changing any comparison between data
values and bin edges. -/

/-- Insert into a sorted list (ascending). -/
def insertSorted (x : Int) : List Int → List Int
  | [] => [x]
  | y :: ys => if x ≤ y then x :: y :: ys else y :: insertSorted x ys

/-- Sort ascending (insertion sort); stands for numpy's internal sort used
by the quantile computation. -/
def sortI : List Int → List Int
  | [] => []
  | x :: xs => insertSorted x (sortI xs)

/-- Four times the empirical `k/4`-quantile (`k ≤ 4`) of a sorted integer
sample, by the default `numpy`/`pandas` linear-interpolation rule: the
virtual index is `p * (n - 1)`, here held in quarter units as
`idx = k * (n - 1)`, whose integer part is `idx / 4` and fractional part
`(idx % 4) / 4`. -/
def quantile4 (s : List Int) (k : Nat) : Int :=
  let idx : Nat := k * (s.length - 1)
  let i : Nat := idx / 4
  let frac : Nat := idx % 4
  let vi := s.getD i 0
  let vi1 := s.getD (i + 1) vi
  4 * vi + (frac : Int) * (vi1 - vi)

/-- The 5 bin edges of `pd.qcut(vals, 4)` — the quantiles of the data at
probabilities 0, 1/4, 1/2, 3/4, 1 — scaled by 4.  Like pandas (default
`duplicates='raise'`), non-unique edges raise
`ValueError: Bin edges must be unique`. -/
def qcutEdges (vals : List Int) : Except RfmError (List Int) :=
  let s := sortI vals
  let edges := [quantile4 s 0, quantile4 s 1, quantile4 s 2,
                quantile4 s 3, quantile4 s 4]
  if edges.Nodup then .ok edges else .error .binEdgesNotUnique

/-- Number of interior edges strictly below the data value `x` (edges are
scaled by 4, so `x` is compared as `4 * x`). -/
def countLt (es : List Int) (x : Int) : Nat :=
  (es.filter (fun e => decide (e < 4 * x))).length

/-- The interior edges (the 2nd, 3rd and 4th of the 5). -/
def interiorEdges (edges : List Int) : List Int :=
  (edges.drop 1).take 3

/-- Bin label of one value: qcut's bins are right-closed with the lowest
edge included, so a value in the data range falls into the bin indexed by
the number of interior edges strictly below it; that index selects from the
`labels` list passed to `pd.qcut`. -/
def qcutLabel (edges : List Int) (labels : List Nat) (x : Int) : Nat :=
  labels.getD (countLt (interiorEdges edges) x) 0

/-- `labels=[4, 3, 2, 1]` used for Recency (lower recency = higher score). -/
def rLabels : List Nat := [4, 3, 2, 1]

/-- `labels=[1, 2, 3, 4]` used for Frequency and Monetary. -/
def fmLabels : List Nat := [1, 2, 3, 4]

/-- `pd.qcut(vals, 4, labels)`: compute the quantile edges, then label every
value of the column by its bin. -/
def qcutScores (vals : List Int) (labels : List Nat) : Except RfmError (List Nat) := do
  let e ← qcutEdges vals
  .ok (vals.map (qcutLabel e labels))

/-! ### Composite score and classification -/

/-- `rfm['RFM_Score']`: concatenation of the three scores rendered as
strings (line 31 of rfm_adv.py, line 50 of rfm_ui.py). -/
def rfmStr (r f m : Nat) : String :=
  toString r ++ toString f ++ toString m

/-- `rfm['RFM_Score_int'] = rfm['RFM_Score'].apply(lambda x: int(x))`
(line 53 of rfm_ui.py). -/
def rfmInt (r f m : Nat) : Nat :=
  (strToNat (rfmStr r f m)).getD 0

/-- `pd.cut(rfm['RFM_Score_int'], bins=[0, 5, 7, 9, 10], labels=categories,
include_lowest=True)` (line 63 of rfm_ui.py).  The four intervals are
[0,5], (5,7], (7,9], (9,10]; a value outside every interval gets no
category (pandas `NaN`).  Note that lines 56-61 of the same file build a
`conditions` list assigning 'Loyal Customers' to scores >= 9, but that list
is never used; the `Category` column comes from this `pd.cut` alone. -/
def categorize_ui (x : Nat) : Option String :=
  if x ≤ 5 then some "Loyal Customers"
  else if x ≤ 7 then some "Potential Loyalists"
  else if x ≤ 9 then some "At-Risk Customers"
  else if x ≤ 10 then some "Lost Customers"
  else none

/-- A Python scalar value as it appears in the rfm_adv.py comparisons. -/
inductive PyVal
  | int (n : Int)
  | str (s : String)
deriving DecidableEq

/-- Equality as evaluated by `rfm['R_Score'] == '1'` in rfm_adv.py: the
score columns are `pd.qcut` Categoricals with integer categories
(`labels=[4,3,2,1]` / `labels=[1,2,3,4]`), and pandas compares a
Categorical against a scalar that is not among its categories as
all-False — an int category is never equal to a str scalar. -/
def pyEq : PyVal → PyVal → Bool
  | .int a, .int b => a == b
  | .str a, .str b => a == b
  | _, _ => false

/-- The `np.select` segmentation table of rfm_adv.py, lines 34-56: first
matching condition wins, `default='Other'`.  Each condition compares the
integer-labelled score against a string literal via `pyEq`. -/
def segment_adv (r f m : Nat) : String :=
  if pyEq (.int r) (.str "1") && pyEq (.int f) (.str "4") && pyEq (.int m) (.str "4") then
    "Best Customers"
  else if pyEq (.int r) (.str "1") && pyEq (.int f) (.str "4") && pyEq (.int m) (.str "3") then
    "Loyal Customers"
  else if pyEq (.int r) (.str "1") && pyEq (.int f) (.str "3") && pyEq (.int m) (.str "3") then
    "Potential Loyalists"
  else if pyEq (.int r) (.str "1") && pyEq (.int f) (.str "2") && pyEq (.int m) (.str "2") then
    "Recent Customers"
  else if pyEq (.int r) (.str "1") && pyEq (.int f) (.str "1") && pyEq (.int m) (.str "1") then
    "Lost Customers"
  else if pyEq (.int r) (.str "2") && pyEq (.int f) (.str "2") && pyEq (.int m) (.str "2") then
    "At Risk"
  else if pyEq (.int r) (.str "3") && pyEq (.int f) (.str "3") && pyEq (.int m) (.str "3") then
    "Churned"
  else if pyEq (.int r) (.str "4") && pyEq (.int f) (.str "4") && pyEq (.int m) (.str "4") then
    "New Customers"
  else "Other"

/-- The same 8-entry table as the spec words it ("an ordered list of exact
(r_score, f_score, m_score) tuples, each mapped to a named segment; first
match wins; no match → 'Other'"), matching the integer score tuple itself.
Declared for comparison with `segment_adv`, the table the code actually
evaluates. -/
def segment_adv_spec (r f m : Nat) : String :=
  if r = 1 ∧ f = 4 ∧ m = 4 then "Best Customers"
  else if r = 1 ∧ f = 4 ∧ m = 3 then "Loyal Customers"
  else if r = 1 ∧ f = 3 ∧ m = 3 then "Potential Loyalists"
  else if r = 1 ∧ f = 2 ∧ m = 2 then "Recent Customers"
  else if r = 1 ∧ f = 1 ∧ m = 1 then "Lost Customers"
  else if r = 2 ∧ f = 2 ∧ m = 2 then "At Risk"
  else if r = 3 ∧ f = 3 ∧ m = 3 then "Churned"
  else if r = 4 ∧ f = 4 ∧ m = 4 then "New Customers"
  else "Other"

/-! ### The two `perform_rfm_analysis` pipelines -/

/-- One output row of rfm_ui.py's `perform_rfm_analysis`. -/
structure UiRow where
  customer : String
  recency : Int
  frequency : Nat
  monetary : Nat
  branch : String
  route : String
  rScore : Nat
  fScore : Nat
  mScore : Nat
  rfmScore : String
  rfmScoreInt : Nat
  category : Option String
deriving DecidableEq

/-- One output row of rfm_adv.py's `perform_rfm_analysis`. -/
structure AdvRow where
  customer : String
  recency : Int
  frequency : Nat
  monetary : Nat
  rScore : Nat
  fScore : Nat
  mScore : Nat
  rfmScore : String
  segment : String
deriving DecidableEq

/-- One result row of rfm_ui.py for customer `c`, given the three sets of
quartile edges. -/
def buildUiRow (now : Int) (rows : List Txn) (re fe me2 : List Int) (c : String) : UiRow :=
  let r := qcutLabel re rLabels (recOf now rows c)
  let fsc := qcutLabel fe fmLabels ((freqOf rows c : Nat) : Int)
  let msc := qcutLabel me2 fmLabels ((monOf rows c : Nat) : Int)
  { customer := c
    recency := recOf now rows c
    frequency := freqOf rows c
    monetary := monOf rows c
    branch := firstBranch rows c
    route := firstRoute rows c
    rScore := r
    fScore := fsc
    mScore := msc
    rfmScore := rfmStr r fsc msc
    rfmScoreInt := rfmInt r fsc msc
    category := categorize_ui (rfmInt r fsc msc) }

/-- One result row of rfm_adv.py for customer `c`. -/
def buildAdvRow (now : Int) (rows : List Txn) (re fe me2 : List Int) (c : String) : AdvRow :=
  let r := qcutLabel re rLabels (recOf now rows c)
  let fsc := qcutLabel fe fmLabels ((freqOf rows c : Nat) : Int)
  let msc := qcutLabel me2 fmLabels ((monOf rows c : Nat) : Int)
  { customer := c
    recency := recOf now rows c
    frequency := freqOf rows c
    monetary := monOf rows c
    rScore := r
    fScore := fsc
    mScore := msc
    rfmScore := rfmStr r fsc msc
    segment := segment_adv r fsc msc }

/-- `perform_rfm_analysis` of src/Main/rfm_ui.py (lines 9-65): column
check, in-place date conversion, per-customer metrics, quartile scores,
composite score, `pd.cut` categorisation.  The first component of the
result is the caller's dataframe after the in-place mutation of line 16. -/
def perform_rfm_analysis_ui (f : InFrame) (now : Int) :
    Except RfmError (InFrame × List UiRow) :=
  if requiredColumns.all (fun c => f.cols.contains c) then do
    let f2 ← convertFrame f
    let re ← qcutEdges (recCol now f2.rows)
    let fe ← qcutEdges (freqCol f2.rows)
    let me2 ← qcutEdges (monCol f2.rows)
    .ok (f2, (keysOf f2.rows).map (buildUiRow now f2.rows re fe me2))
  else .error .schemaError

/-- `perform_rfm_analysis` of src/Main/rfm_adv.py (lines 9-58): column
check, in-place date conversion, per-customer metrics, quartile scores,
composite score, `np.select` segmentation.  The first component of the
result is the caller's dataframe after the in-place mutation of line 16. -/
def perform_rfm_analysis_adv (f : InFrame) (now : Int) :
    Except RfmError (InFrame × List AdvRow) :=
  if requiredColumns.all (fun c => f.cols.contains c) then do
    let f2 ← convertFrame f
    let re ← qcutEdges (recCol now f2.rows)
    let fe ← qcutEdges (freqCol f2.rows)
    let me2 ← qcutEdges (monCol f2.rows)
    .ok (f2, (keysOf f2.rows).map (buildAdvRow now f2.rows re fe me2))
  else .error .schemaError

/-! ### Concrete data used by witnesses and counterexamples -/

/-- Shorthand for a transaction row with a parsed date. -/
def mkTxn (c b r : String) (d : Int) : Txn :=
  { customer := c, branch := b, route := r, date := .dt d }

/-- A 4-customer, 10-transaction input: customer A has 4 purchases (latest
day 100), B has 3 (latest day 90), C has 2 (latest day 80), D has 1
(day 70).  With `now = 101` the recencies are 1, 11, 21, 31 and the
frequencies 4, 3, 2, 1 — all three metric columns have 4 distinct values,
so every `pd.qcut` succeeds, and A lands in the best quartile of every
metric. -/
def demoFrame : InFrame :=
  { cols := ["Branch", "Route", "Customer", "Date of Purchase"]
    rows := [mkTxn "A" "b1" "r1" 100, mkTxn "A" "b1" "r1" 99,
             mkTxn "A" "b1" "r1" 98, mkTxn "A" "b1" "r1" 97,
             mkTxn "B" "b2" "r2" 90, mkTxn "B" "b2" "r2" 89,
             mkTxn "B" "b2" "r2" 88,
             mkTxn "C" "b3" "r3" 80, mkTxn "C" "b3" "r3" 79,
             mkTxn "D" "b4" "r4" 70] }

/-- The same shape of input with raw string dates, as uploaded sheets
provide them: the date cells are strings that `pd.to_datetime` parses. -/
def demoStrFrame : InFrame :=
  { cols := ["Branch", "Route", "Customer", "Date of Purchase"]
    rows := [{ customer := "A", branch := "b1", route := "r1", date := .str "2023-04-10" },
             { customer := "A", branch := "b1", route := "r1", date := .str "2023-04-09" },
             { customer := "A", branch := "b1", route := "r1", date := .str "2023-04-08" },
             { customer := "A", branch := "b1", route := "r1", date := .str "2023-04-07" },
             { customer := "B", branch := "b2", route := "r2", date := .str "2023-03-31" },
             { customer := "B", branch := "b2", route := "r2", date := .str "2023-03-30" },
             { customer := "B", branch := "b2", route := "r2", date := .str "2023-03-29" },
             { customer := "C", branch := "b3", route := "r3", date := .str "2023-03-21" },
             { customer := "C", branch := "b3", route := "r3", date := .str "2023-03-20" },
             { customer := "D", branch := "b4", route := "r4", date := .str "2023-03-11" }] }

/-- The `now` snapshot used with `demoStrFrame`: 2023-05-01. -/
def demoStrNow : Int := daysFromCivil 2023 5 1

/-- A 3-customer input with 3, 2, 1 transactions: every metric column has
only 3 distinct values. -/
def threeCustomerFrame : InFrame :=
  { cols := ["Branch", "Route", "Customer", "Date of Purchase"]
    rows := [mkTxn "A" "b1" "r1" 100, mkTxn "A" "b1" "r1" 99,
             mkTxn "A" "b1" "r1" 98,
             mkTxn "B" "b2" "r2" 90, mkTxn "B" "b2" "r2" 89,
             mkTxn "C" "b3" "r3" 80] }

/-- A frame whose column list lacks 'Date of Purchase'. -/
def missingColFrame : InFrame :=
  { cols := ["Branch", "Route", "Customer"]
    rows := [mkTxn "A" "b1" "r1" 100] }

/-- The mutated frame of a successful run (first component of the `.ok`
payload); a dummy empty frame for failed runs. -/
def okFrameOf (e : Except RfmError (InFrame × List UiRow)) : InFrame :=
  (e.toOption.map Prod.fst).getD { cols := [], rows := [] }

/-- The result rows of a successful rfm_ui run; `[]` for failed runs. -/
def okUiRowsOf (e : Except RfmError (InFrame × List UiRow)) : List UiRow :=
  (e.toOption.map Prod.snd).getD []

/-- The mutated frame of a successful rfm_adv run; a dummy for failures. -/
def okAdvFrameOf (e : Except RfmError (InFrame × List AdvRow)) : InFrame :=
  (e.toOption.map Prod.fst).getD { cols := [], rows := [] }

/-- The result rows of a successful rfm_adv run; `[]` for failed runs. -/
def okAdvRowsOf (e : Except RfmError (InFrame × List AdvRow)) : List AdvRow :=
  (e.toOption.map Prod.snd).getD []


/-! ### Helper lemmas -/

instance exceptDecEq {ε α : Type} [DecidableEq ε] [DecidableEq α] :
    DecidableEq (Except ε α) := fun a b =>
  match a, b with
  | .ok x, .ok y =>
    if h : x = y then .isTrue (by rw [h]) else .isFalse (by simp [h])
  | .ok _, .error _ => .isFalse (by simp)
  | .error _, .ok _ => .isFalse (by simp)
  | .error e1, .error e2 =>
    if h : e1 = e2 then .isTrue (by rw [h]) else .isFalse (by simp [h])

theorem exceptBind_ok {α β : Type} (a : α) (g : α → Except RfmError β) :
    (Except.ok a >>= g) = g a := rfl

theorem exceptBind_error {α β : Type} (e : RfmError) (g : α → Except RfmError β) :
    ((Except.error e : Except RfmError α) >>= g) = .error e := rfl

theorem qcutScores_ok_elim (vals : List Int) (labels : List Nat) (s : List Nat)
    (h : qcutScores vals labels = .ok s) :
    ∃ e, qcutEdges vals = .ok e ∧ s = vals.map (qcutLabel e labels) := by
  unfold qcutScores at h
  cases hq : qcutEdges vals with
  | error e => rw [hq, exceptBind_error] at h; exact absurd h (by simp)
  | ok e =>
    rw [hq, exceptBind_ok] at h
    exact ⟨e, rfl, by injection h with h2; rw [h2]⟩

theorem convertRows_ok_elim (ts : List Txn) (ts2 : List Txn)
    (h : convertRows ts = .ok ts2) :
    ts2.map (fun r => r.customer) = ts.map (fun r => r.customer) ∧
    ts2.map (fun r => r.branch) = ts.map (fun r => r.branch) ∧
    ts2.map (fun r => r.route) = ts.map (fun r => r.route) ∧
    ts2.length = ts.length := by
  induction ts generalizing ts2 with
  | nil =>
    unfold convertRows at h
    injection h with h1
    rw [← h1]
    exact ⟨rfl, rfl, rfl, rfl⟩
  | cons t ts ih =>
    unfold convertRows at h
    cases hd : toDatetime t.date with
    | error e => rw [hd, exceptBind_error] at h; exact absurd h (by simp)
    | ok n =>
      rw [hd, exceptBind_ok] at h
      cases hr : convertRows ts with
      | error e => rw [hr, exceptBind_error] at h; exact absurd h (by simp)
      | ok rest =>
        rw [hr, exceptBind_ok] at h
        injection h with h1
        obtain ⟨i1, i2, i3, i4⟩ := ih rest hr
        rw [← h1]
        refine ⟨?_, ?_, ?_, ?_⟩ <;> simp [i1, i2, i3, i4]

theorem convertFrame_ok_elim (f f2 : InFrame) (h : convertFrame f = .ok f2) :
    f2.cols = f.cols ∧ convertRows f.rows = .ok f2.rows := by
  unfold convertFrame at h
  cases hr : convertRows f.rows with
  | error e => rw [hr, exceptBind_error] at h; exact absurd h (by simp)
  | ok rows2 =>
    rw [hr, exceptBind_ok] at h
    injection h with h1
    rw [← h1]
    exact ⟨rfl, rfl⟩

theorem perform_ui_ok_elim (f : InFrame) (now : Int) (f2 : InFrame) (out : List UiRow)
    (h : perform_rfm_analysis_ui f now = .ok (f2, out)) :
    requiredColumns.all (fun c => f.cols.contains c) = true ∧
    convertFrame f = .ok f2 ∧
    ∃ re fe me2,
      qcutEdges (recCol now f2.rows) = .ok re ∧
      qcutEdges (freqCol f2.rows) = .ok fe ∧
      qcutEdges (monCol f2.rows) = .ok me2 ∧
      out = (keysOf f2.rows).map (buildUiRow now f2.rows re fe me2) := by
  unfold perform_rfm_analysis_ui at h
  split at h
  case isFalse => exact absurd h (by simp)
  case isTrue hcols =>
    cases hc : convertFrame f with
    | error e => rw [hc, exceptBind_error] at h; exact absurd h (by simp)
    | ok g =>
      rw [hc, exceptBind_ok] at h
      cases h1 : qcutEdges (recCol now g.rows) with
      | error e => rw [h1, exceptBind_error] at h; exact absurd h (by simp)
      | ok re =>
        rw [h1, exceptBind_ok] at h
        cases h2 : qcutEdges (freqCol g.rows) with
        | error e => rw [h2, exceptBind_error] at h; exact absurd h (by simp)
        | ok fe =>
          rw [h2, exceptBind_ok] at h
          cases h3 : qcutEdges (monCol g.rows) with
          | error e => rw [h3, exceptBind_error] at h; exact absurd h (by simp)
          | ok me2 =>
            rw [h3, exceptBind_ok] at h
            injection h with h4
            injection h4 with h5 h6
            refine ⟨hcols, ?_, re, fe, me2, ?_, ?_, ?_, ?_⟩
            · rw [← h5]
            · rw [← h5]; exact h1
            · rw [← h5]; exact h2
            · rw [← h5]; exact h3
            · rw [← h5, ← h6]

theorem perform_adv_ok_elim (f : InFrame) (now : Int) (f2 : InFrame) (out : List AdvRow)
    (h : perform_rfm_analysis_adv f now = .ok (f2, out)) :
    requiredColumns.all (fun c => f.cols.contains c) = true ∧
    convertFrame f = .ok f2 ∧
    ∃ re fe me2,
      qcutEdges (recCol now f2.rows) = .ok re ∧
      qcutEdges (freqCol f2.rows) = .ok fe ∧
      qcutEdges (monCol f2.rows) = .ok me2 ∧
      out = (keysOf f2.rows).map (buildAdvRow now f2.rows re fe me2) := by
  unfold perform_rfm_analysis_adv at h
  split at h
  case isFalse => exact absurd h (by simp)
  case isTrue hcols =>
    cases hc : convertFrame f with
    | error e => rw [hc, exceptBind_error] at h; exact absurd h (by simp)
    | ok g =>
      rw [hc, exceptBind_ok] at h
      cases h1 : qcutEdges (recCol now g.rows) with
      | error e => rw [h1, exceptBind_error] at h; exact absurd h (by simp)
      | ok re =>
        rw [h1, exceptBind_ok] at h
        cases h2 : qcutEdges (freqCol g.rows) with
        | error e => rw [h2, exceptBind_error] at h; exact absurd h (by simp)
        | ok fe =>
          rw [h2, exceptBind_ok] at h
          cases h3 : qcutEdges (monCol g.rows) with
          | error e => rw [h3, exceptBind_error] at h; exact absurd h (by simp)
          | ok me2 =>
            rw [h3, exceptBind_ok] at h
            injection h with h4
            injection h4 with h5 h6
            refine ⟨hcols, ?_, re, fe, me2, ?_, ?_, ?_, ?_⟩
            · rw [← h5]
            · rw [← h5]; exact h1
            · rw [← h5]; exact h2
            · rw [← h5]; exact h3
            · rw [← h5, ← h6]

/-! ### Claim C1 (range policy boundary) -/

/-- Claim C1, evaluation at the failing input: on `demoFrame` customer A
attains the maximal scores r = f = m = 4, so the maximal composite value
444, yet the range-policy classification of rfm_ui.py assigns A **no**
category — `pd.cut` with `bins=[0, 5, 7, 9, 10]` leaves every value above
10 unbinned, so the maximal composite is not placed in the top segment
bucket 'Loyal Customers' (nor in any bucket), contradicting the claim; in
fact every customer of the run is left uncategorised. -/
theorem claimC1_code_eval :
    (okUiRowsOf (perform_rfm_analysis_ui demoFrame 101)).map
      (fun row => (row.customer, row.rScore, row.fScore, row.mScore,
                   row.rfmScoreInt, row.category)) =
      [("A", 4, 4, 4, 444, none), ("B", 3, 3, 3, 333, none),
       ("C", 2, 2, 2, 222, none), ("D", 1, 1, 1, 111, none)] ∧
    categorize_ui 444 = none := by
  exact ⟨by decide, by decide⟩

/-! ### Claim C2 (pattern policy) -/

/-- Claim C2, counterexample: in rfm_adv.py the scores are integer-labelled
Categoricals but the `np.select` conditions compare them against string
literals, so no condition ever matches: the tuple (1,4,4) is classified
'Other', not 'Best Customers'; and even the table as written maps (4,4,4)
to 'New Customers', not to a Best/Loyal label — on `demoFrame`, customer A
(lowest recency, highest frequency, highest monetary, scores (4,4,4))
receives 'Other'. -/
theorem claimC2_counterexample :
    segment_adv 1 4 4 = "Other" ∧
    segment_adv_spec 4 4 4 = "New Customers" ∧
    (okAdvRowsOf (perform_rfm_analysis_adv demoFrame 101)).map
      (fun row => (row.customer, row.rScore, row.fScore, row.mScore, row.segment)) =
      [("A", 4, 4, 4, "Other"), ("B", 3, 3, 3, "Other"),
       ("C", 2, 2, 2, "Other"), ("D", 1, 1, 1, "Other")] := by
  exact ⟨by decide, by decide, by decide⟩

/-- Claim C2, amended: because every condition of the `np.select` table
compares an integer score with a string literal, the comparison is always
false and every (r, f, m) triple — matched entry or not — is classified
with the default segment 'Other'. -/
theorem claimC2_amended (r f m : Nat) : segment_adv r f m = "Other" := by
  simp [segment_adv, pyEq]

/-! ### Claim C3 (configuration coverage) -/

/-- Claim C3, counterexample: the run on `demoFrame` succeeds — no
configuration error of any kind is raised (the error type of the embedding
has no such constructor because the source has no such check) — yet every
customer of the run, including one whose composite value 444 is reachable
and maximal, resolves to no segment at all under the range policy. -/
theorem claimC3_counterexample :
    (perform_rfm_analysis_ui demoFrame 101).isOk = true ∧
    (okUiRowsOf (perform_rfm_analysis_ui demoFrame 101)).map
      (fun row => (row.customer, row.category)) =
      [("A", none), ("B", none), ("C", none), ("D", none)] := by
  exact ⟨by decide, by decide⟩

/-- Claim C3, amended: the code performs no coverage validation and raises
no `ConfigurationError`.  The pattern policy is total — every triple
resolves to exactly one segment, via the explicit default 'Other' — while
the range policy's bucket table `[0, 5, 7, 9, 10]` covers none of the
composite values reachable by quartile scoring: for every
r, f, m ∈ {1, 2, 3, 4} the composite integer lies in [111, 444] and is
silently assigned no category. -/
theorem claimC3_amended (r f m : Nat)
    (hr1 : 1 ≤ r) (hr4 : r ≤ 4) (hf1 : 1 ≤ f) (hf4 : f ≤ 4)
    (hm1 : 1 ≤ m) (hm4 : m ≤ 4) :
    categorize_ui (rfmInt r f m) = none ∧ segment_adv r f m = "Other" := by
  refine ⟨?_, by simp [segment_adv, pyEq]⟩
  interval_cases r <;> interval_cases f <;> interval_cases m <;> decide

/-- Witness for `claimC3_amended` at the maximal scores (4, 4, 4). -/
theorem claimC3_witness :
    ((1 : Nat) ≤ 4 ∧ (4 : Nat) ≤ 4) ∧
    (categorize_ui (rfmInt 4 4 4) = none ∧ segment_adv 4 4 4 = "Other") :=
  ⟨⟨by decide, by decide⟩,
   claimC3_amended 4 4 4 (by decide) (by decide) (by decide) (by decide)
     (by decide) (by decide)⟩

/-! ### Claim C4 (side effects) -/

/-- Claim C4, counterexample: `perform_rfm_analysis` mutates its input — on
`demoStrFrame` (string-dated input, the normal upload format) the run
succeeds, and the caller's dataframe after the call differs from the input:
line 16 wrote the parsed datetimes back into the 'Date of Purchase'
column. -/
theorem claimC4_counterexample :
    (perform_rfm_analysis_ui demoStrFrame demoStrNow).isOk = true ∧
    okFrameOf (perform_rfm_analysis_ui demoStrFrame demoStrNow) ≠ demoStrFrame := by
  exact ⟨by decide, by decide⟩

/-- Claim C4, amended: the only side effect on the input table is the
in-place overwrite of the 'Date of Purchase' column with its parsed
datetimes (line 16 of both files); the column list, the Customer, Branch
and Route columns and the row count are unchanged, and the post-call table
is exactly the `pd.to_datetime` conversion of the input. -/
theorem claimC4_amended (f g : InFrame) (nf ng : Int) (f2 g2 : InFrame)
    (outUi : List UiRow) (outAdv : List AdvRow)
    (hui : perform_rfm_analysis_ui f nf = .ok (f2, outUi))
    (hadv : perform_rfm_analysis_adv g ng = .ok (g2, outAdv)) :
    (convertFrame f = .ok f2 ∧ f2.cols = f.cols ∧
     f2.rows.map (fun r => r.customer) = f.rows.map (fun r => r.customer) ∧
     f2.rows.map (fun r => r.branch) = f.rows.map (fun r => r.branch) ∧
     f2.rows.map (fun r => r.route) = f.rows.map (fun r => r.route) ∧
     f2.rows.length = f.rows.length) ∧
    (convertFrame g = .ok g2 ∧ g2.cols = g.cols ∧
     g2.rows.map (fun r => r.customer) = g.rows.map (fun r => r.customer) ∧
     g2.rows.map (fun r => r.branch) = g.rows.map (fun r => r.branch) ∧
     g2.rows.map (fun r => r.route) = g.rows.map (fun r => r.route) ∧
     g2.rows.length = g.rows.length) := by
  obtain ⟨-, hcf, -⟩ := perform_ui_ok_elim f nf f2 outUi hui
  obtain ⟨-, hcg, -⟩ := perform_adv_ok_elim g ng g2 outAdv hadv
  obtain ⟨hc1, hr1⟩ := convertFrame_ok_elim f f2 hcf
  obtain ⟨hc2, hr2⟩ := convertFrame_ok_elim g g2 hcg
  obtain ⟨a1, a2, a3, a4⟩ := convertRows_ok_elim f.rows f2.rows hr1
  obtain ⟨b1, b2, b3, b4⟩ := convertRows_ok_elim g.rows g2.rows hr2
  exact ⟨⟨hcf, hc1, a1, a2, a3, a4⟩, ⟨hcg, hc2, b1, b2, b3, b4⟩⟩

/-- Witness for `claimC4_amended`: both pipelines run on the string-dated
`demoStrFrame`. -/
theorem claimC4_witness :
    (convertFrame demoStrFrame =
       .ok (okFrameOf (perform_rfm_analysis_ui demoStrFrame demoStrNow)) ∧
     (okFrameOf (perform_rfm_analysis_ui demoStrFrame demoStrNow)).cols = demoStrFrame.cols ∧
     (okFrameOf (perform_rfm_analysis_ui demoStrFrame demoStrNow)).rows.map (fun r => r.customer) =
       demoStrFrame.rows.map (fun r => r.customer) ∧
     (okFrameOf (perform_rfm_analysis_ui demoStrFrame demoStrNow)).rows.map (fun r => r.branch) =
       demoStrFrame.rows.map (fun r => r.branch) ∧
     (okFrameOf (perform_rfm_analysis_ui demoStrFrame demoStrNow)).rows.map (fun r => r.route) =
       demoStrFrame.rows.map (fun r => r.route) ∧
     (okFrameOf (perform_rfm_analysis_ui demoStrFrame demoStrNow)).rows.length =
       demoStrFrame.rows.length) ∧
    (convertFrame demoStrFrame =
       .ok (okAdvFrameOf (perform_rfm_analysis_adv demoStrFrame demoStrNow)) ∧
     (okAdvFrameOf (perform_rfm_analysis_adv demoStrFrame demoStrNow)).cols = demoStrFrame.cols ∧
     (okAdvFrameOf (perform_rfm_analysis_adv demoStrFrame demoStrNow)).rows.map (fun r => r.customer) =
       demoStrFrame.rows.map (fun r => r.customer) ∧
     (okAdvFrameOf (perform_rfm_analysis_adv demoStrFrame demoStrNow)).rows.map (fun r => r.branch) =
       demoStrFrame.rows.map (fun r => r.branch) ∧
     (okAdvFrameOf (perform_rfm_analysis_adv demoStrFrame demoStrNow)).rows.map (fun r => r.route) =
       demoStrFrame.rows.map (fun r => r.route) ∧
     (okAdvFrameOf (perform_rfm_analysis_adv demoStrFrame demoStrNow)).rows.length =
       demoStrFrame.rows.length) :=
  claimC4_amended demoStrFrame demoStrFrame demoStrNow demoStrNow
    (okFrameOf (perform_rfm_analysis_ui demoStrFrame demoStrNow))
    (okAdvFrameOf (perform_rfm_analysis_adv demoStrFrame demoStrNow))
    (okUiRowsOf (perform_rfm_analysis_ui demoStrFrame demoStrNow))
    (okAdvRowsOf (perform_rfm_analysis_adv demoStrFrame demoStrNow))
    (by rfl) (by rfl)

/-! ### Claim C8 (schema check) -/

/-- Claim C8: whenever one of the four required columns (Branch, Route,
Customer, 'Date of Purchase') is absent from the input's column list, both
`perform_rfm_analysis` functions fail immediately with the
missing-required-columns `ValueError` (the spec's `SchemaError`), before
any date conversion or metric computation. -/
theorem claimC8_thm (f g : InFrame) (nf ng : Int)
    (hf : requiredColumns.all (fun c => f.cols.contains c) = false)
    (hg : requiredColumns.all (fun c => g.cols.contains c) = false) :
    perform_rfm_analysis_ui f nf = .error .schemaError ∧
    perform_rfm_analysis_adv g ng = .error .schemaError := by
  constructor
  · unfold perform_rfm_analysis_ui
    rw [if_neg]
    rw [hf]
    exact Bool.false_ne_true
  · unfold perform_rfm_analysis_adv
    rw [if_neg]
    rw [hg]
    exact Bool.false_ne_true

/-- Witness for `claimC8_thm`: `missingColFrame` lacks 'Date of
Purchase'. -/
theorem claimC8_witness :
    requiredColumns.all (fun c => missingColFrame.cols.contains c) = false ∧
    (perform_rfm_analysis_ui missingColFrame 0 = .error .schemaError ∧
     perform_rfm_analysis_adv missingColFrame 0 = .error .schemaError) :=
  ⟨by decide, claimC8_thm missingColFrame missingColFrame 0 0 (by decide) (by decide)⟩

/-! ### Claim C9 (customer-set preservation) -/

theorem buildUiRow_customer (now : Int) (rows : List Txn) (re fe me2 : List Int)
    (c : String) : (buildUiRow now rows re fe me2 c).customer = c := rfl

theorem buildAdvRow_customer (now : Int) (rows : List Txn) (re fe me2 : List Int)
    (c : String) : (buildAdvRow now rows re fe me2 c).customer = c := rfl

/-- Claim C9: on every successful run, the output holds exactly one row per
distinct customer_id of the original transaction input — the output's
customer column is duplicate-free and its underlying set of ids equals the
set of ids appearing in the input rows — for both pipelines. -/
theorem claimC9_thm (f g : InFrame) (nf ng : Int) (f2 g2 : InFrame)
    (outUi : List UiRow) (outAdv : List AdvRow)
    (hui : perform_rfm_analysis_ui f nf = .ok (f2, outUi))
    (hadv : perform_rfm_analysis_adv g ng = .ok (g2, outAdv)) :
    ((outUi.map (fun r => r.customer)).Nodup ∧
     (outUi.map (fun r => r.customer)).toFinset =
       (f.rows.map (fun r => r.customer)).toFinset) ∧
    ((outAdv.map (fun r => r.customer)).Nodup ∧
     (outAdv.map (fun r => r.customer)).toFinset =
       (g.rows.map (fun r => r.customer)).toFinset) := by
  obtain ⟨-, hcf, re, fe, me2, -, -, -, hout⟩ := perform_ui_ok_elim f nf f2 outUi hui
  obtain ⟨-, hcg, re2, fe2, me22, -, -, -, hout2⟩ := perform_adv_ok_elim g ng g2 outAdv hadv
  obtain ⟨-, hr1⟩ := convertFrame_ok_elim f f2 hcf
  obtain ⟨-, hr2⟩ := convertFrame_ok_elim g g2 hcg
  obtain ⟨a1, -, -, -⟩ := convertRows_ok_elim f.rows f2.rows hr1
  obtain ⟨b1, -, -, -⟩ := convertRows_ok_elim g.rows g2.rows hr2
  have hmap1 : outUi.map (fun r => r.customer) = keysOf f2.rows := by
    rw [hout, List.map_map]
    have he : ((fun r : UiRow => r.customer) ∘ buildUiRow nf f2.rows re fe me2) =
        fun c => c := rfl
    rw [he, List.map_id']
  have hmap2 : outAdv.map (fun r => r.customer) = keysOf g2.rows := by
    rw [hout2, List.map_map]
    have he : ((fun r : AdvRow => r.customer) ∘ buildAdvRow ng g2.rows re2 fe2 me22) =
        fun c => c := rfl
    rw [he, List.map_id']
  constructor
  · constructor
    · rw [hmap1]; exact List.nodup_dedup _
    · rw [hmap1]
      unfold keysOf
      rw [a1]
      ext a
      simp [List.mem_dedup]
  · constructor
    · rw [hmap2]; exact List.nodup_dedup _
    · rw [hmap2]
      unfold keysOf
      rw [b1]
      ext a
      simp [List.mem_dedup]

/-- Witness for `claimC9_thm`: both pipelines on `demoFrame`. -/
theorem claimC9_witness :
    (((okUiRowsOf (perform_rfm_analysis_ui demoFrame 101)).map (fun r => r.customer)).Nodup ∧
     ((okUiRowsOf (perform_rfm_analysis_ui demoFrame 101)).map (fun r => r.customer)).toFinset =
       (demoFrame.rows.map (fun r => r.customer)).toFinset) ∧
    (((okAdvRowsOf (perform_rfm_analysis_adv demoFrame 101)).map (fun r => r.customer)).Nodup ∧
     ((okAdvRowsOf (perform_rfm_analysis_adv demoFrame 101)).map (fun r => r.customer)).toFinset =
       (demoFrame.rows.map (fun r => r.customer)).toFinset) :=
  claimC9_thm demoFrame demoFrame 101 101
    (okFrameOf (perform_rfm_analysis_ui demoFrame 101))
    (okAdvFrameOf (perform_rfm_analysis_adv demoFrame 101))
    (okUiRowsOf (perform_rfm_analysis_ui demoFrame 101))
    (okAdvRowsOf (perform_rfm_analysis_adv demoFrame 101))
    (by rfl) (by rfl)

/-! ### Claim C7 (composite-score cardinality) -/

theorem countLt_le_three (edges : List Int) (x : Int) :
    countLt (interiorEdges edges) x ≤ 3 := by
  unfold countLt interiorEdges
  calc (((edges.drop 1).take 3).filter (fun e => decide (e < 4 * x))).length
      ≤ ((edges.drop 1).take 3).length := List.length_filter_le _ _
    _ ≤ 3 := List.length_take_le _ _

theorem qcutLabel_r_bound (e : List Int) (x : Int) :
    1 ≤ qcutLabel e rLabels x ∧ qcutLabel e rLabels x ≤ 4 := by
  unfold qcutLabel
  have h := countLt_le_three e x
  set k := countLt (interiorEdges e) x with hk
  interval_cases k <;> exact ⟨by decide, by decide⟩

theorem qcutLabel_fm_bound (e : List Int) (x : Int) :
    1 ≤ qcutLabel e fmLabels x ∧ qcutLabel e fmLabels x ≤ 4 := by
  unfold qcutLabel
  have h := countLt_le_three e x
  set k := countLt (interiorEdges e) x with hk
  interval_cases k <;> exact ⟨by decide, by decide⟩

theorem rfmStr_facts (r f m : Nat)
    (hr1 : 1 ≤ r) (hr4 : r ≤ 4) (hf1 : 1 ≤ f) (hf4 : f ≤ 4)
    (hm1 : 1 ≤ m) (hm4 : m ≤ 4) :
    (rfmStr r f m).length = 3 ∧
    (∀ ch ∈ (rfmStr r f m).data, ch ∈ ['1', '2', '3', '4']) ∧
    111 ≤ rfmInt r f m ∧ rfmInt r f m ≤ 444 := by
  interval_cases r <;> interval_cases f <;> interval_cases m <;>
    exact ⟨by decide, by decide, by decide, by decide⟩

/-- Claim C7: on every successful run, every output row's r/f/m scores lie
in {1, 2, 3, 4}, its composite score string has exactly 3 characters, each
a digit in {'1', '2', '3', '4'}, and (in rfm_ui.py, which materialises the
integer form) the composite's integer value lies in [111, 444] — for both
pipelines. -/
theorem claimC7_thm (f g : InFrame) (nf ng : Int) (f2 g2 : InFrame)
    (outUi : List UiRow) (outAdv : List AdvRow)
    (hui : perform_rfm_analysis_ui f nf = .ok (f2, outUi))
    (hadv : perform_rfm_analysis_adv g ng = .ok (g2, outAdv)) :
    (∀ row ∈ outUi,
      (1 ≤ row.rScore ∧ row.rScore ≤ 4) ∧
      (1 ≤ row.fScore ∧ row.fScore ≤ 4) ∧
      (1 ≤ row.mScore ∧ row.mScore ≤ 4) ∧
      row.rfmScore.length = 3 ∧
      (∀ ch ∈ row.rfmScore.data, ch ∈ ['1', '2', '3', '4']) ∧
      111 ≤ row.rfmScoreInt ∧ row.rfmScoreInt ≤ 444) ∧
    (∀ row ∈ outAdv,
      (1 ≤ row.rScore ∧ row.rScore ≤ 4) ∧
      (1 ≤ row.fScore ∧ row.fScore ≤ 4) ∧
      (1 ≤ row.mScore ∧ row.mScore ≤ 4) ∧
      row.rfmScore.length = 3 ∧
      (∀ ch ∈ row.rfmScore.data, ch ∈ ['1', '2', '3', '4'])) := by
  obtain ⟨-, -, re, fe, me2, -, -, -, hout⟩ := perform_ui_ok_elim f nf f2 outUi hui
  obtain ⟨-, -, re2, fe2, me22, -, -, -, hout2⟩ := perform_adv_ok_elim g ng g2 outAdv hadv
  constructor
  · intro row hrow
    rw [hout] at hrow
    obtain ⟨c, -, rfl⟩ := List.mem_map.1 hrow
    obtain ⟨r1, r4⟩ := qcutLabel_r_bound re (recOf nf f2.rows c)
    obtain ⟨f1, f4⟩ := qcutLabel_fm_bound fe ((freqOf f2.rows c : Nat) : Int)
    obtain ⟨m1, m4⟩ := qcutLabel_fm_bound me2 ((monOf f2.rows c : Nat) : Int)
    obtain ⟨s1, s2, s3, s4⟩ := rfmStr_facts _ _ _ r1 r4 f1 f4 m1 m4
    exact ⟨⟨r1, r4⟩, ⟨f1, f4⟩, ⟨m1, m4⟩, s1, s2, s3, s4⟩
  · intro row hrow
    rw [hout2] at hrow
    obtain ⟨c, -, rfl⟩ := List.mem_map.1 hrow
    obtain ⟨r1, r4⟩ := qcutLabel_r_bound re2 (recOf ng g2.rows c)
    obtain ⟨f1, f4⟩ := qcutLabel_fm_bound fe2 ((freqOf g2.rows c : Nat) : Int)
    obtain ⟨m1, m4⟩ := qcutLabel_fm_bound me22 ((monOf g2.rows c : Nat) : Int)
    obtain ⟨s1, s2, -, -⟩ := rfmStr_facts _ _ _ r1 r4 f1 f4 m1 m4
    exact ⟨⟨r1, r4⟩, ⟨f1, f4⟩, ⟨m1, m4⟩, s1, s2⟩

/-- Witness for `claimC7_thm`: both pipelines on `demoFrame`. -/
theorem claimC7_witness :
    (∀ row ∈ okUiRowsOf (perform_rfm_analysis_ui demoFrame 101),
      (1 ≤ row.rScore ∧ row.rScore ≤ 4) ∧
      (1 ≤ row.fScore ∧ row.fScore ≤ 4) ∧
      (1 ≤ row.mScore ∧ row.mScore ≤ 4) ∧
      row.rfmScore.length = 3 ∧
      (∀ ch ∈ row.rfmScore.data, ch ∈ ['1', '2', '3', '4']) ∧
      111 ≤ row.rfmScoreInt ∧ row.rfmScoreInt ≤ 444) ∧
    (∀ row ∈ okAdvRowsOf (perform_rfm_analysis_adv demoFrame 101),
      (1 ≤ row.rScore ∧ row.rScore ≤ 4) ∧
      (1 ≤ row.fScore ∧ row.fScore ≤ 4) ∧
      (1 ≤ row.mScore ∧ row.mScore ≤ 4) ∧
      row.rfmScore.length = 3 ∧
      (∀ ch ∈ row.rfmScore.data, ch ∈ ['1', '2', '3', '4'])) :=
  claimC7_thm demoFrame demoFrame 101 101
    (okFrameOf (perform_rfm_analysis_ui demoFrame 101))
    (okAdvFrameOf (perform_rfm_analysis_adv demoFrame 101))
    (okUiRowsOf (perform_rfm_analysis_ui demoFrame 101))
    (okAdvRowsOf (perform_rfm_analysis_adv demoFrame 101))
    (by rfl) (by rfl)

/-! ### Claim C6 (quartile direction / monotonicity) -/

theorem length_filter_mono {p q : Int → Bool} (l : List Int)
    (h : ∀ x, p x = true → q x = true) :
    (l.filter p).length ≤ (l.filter q).length :=
  (List.monotone_filter_right l h).length_le

theorem countLt_mono (es : List Int) (x y : Int) (hxy : x ≤ y) :
    countLt es x ≤ countLt es y := by
  unfold countLt
  refine length_filter_mono es (fun e he => ?_)
  simp only [decide_eq_true_eq] at he ⊢
  omega

theorem getD_rLabels_anti (k1 k2 : Nat) (h12 : k1 ≤ k2) (h3 : k2 ≤ 3) :
    rLabels.getD k2 0 ≤ rLabels.getD k1 0 := by
  interval_cases k2 <;> interval_cases k1 <;> decide

theorem getD_fmLabels_mono (k1 k2 : Nat) (h12 : k1 ≤ k2) (h3 : k2 ≤ 3) :
    fmLabels.getD k1 0 ≤ fmLabels.getD k2 0 := by
  interval_cases k2 <;> interval_cases k1 <;> decide

theorem qcutLabel_r_anti (e : List Int) (x y : Int) (hxy : x ≤ y) :
    qcutLabel e rLabels y ≤ qcutLabel e rLabels x := by
  unfold qcutLabel
  exact getD_rLabels_anti _ _ (countLt_mono _ _ _ hxy) (countLt_le_three e y)

theorem qcutLabel_fm_mono (e : List Int) (x y : Int) (hxy : x ≤ y) :
    qcutLabel e fmLabels x ≤ qcutLabel e fmLabels y := by
  unfold qcutLabel
  exact getD_fmLabels_mono _ _ (countLt_mono _ _ _ hxy) (countLt_le_three e y)

/-- Claim C6: quartile scoring is direction-correct — when the recency
column is strictly increasing, the `pd.qcut(..., labels=[4,3,2,1])` score
sequence is non-increasing, and when the frequency column is strictly
increasing, the `pd.qcut(..., labels=[1,2,3,4])` score sequence is
non-decreasing. -/
theorem claimC6_thm (rvals fvals : List Int) (rs fs : List Nat)
    (hr : qcutScores rvals rLabels = .ok rs)
    (hf : qcutScores fvals fmLabels = .ok fs)
    (hrv : rvals.Pairwise (fun a b => a < b))
    (hfv : fvals.Pairwise (fun a b => a < b)) :
    rs.Pairwise (fun a b => b ≤ a) ∧ fs.Pairwise (fun a b => a ≤ b) := by
  obtain ⟨e, -, hs⟩ := qcutScores_ok_elim _ _ _ hr
  obtain ⟨e2, -, hs2⟩ := qcutScores_ok_elim _ _ _ hf
  subst hs hs2
  constructor
  · rw [List.pairwise_map]
    exact hrv.imp (fun hab => qcutLabel_r_anti e _ _ (le_of_lt hab))
  · rw [List.pairwise_map]
    exact hfv.imp (fun hab => qcutLabel_fm_mono e2 _ _ (le_of_lt hab))

/-- Witness for `claimC6_thm`: the recency column [1, 11, 21, 31] and the
frequency column [1, 2, 3, 4] of `demoFrame`. -/
theorem claimC6_witness :
    List.Pairwise (fun a b : Nat => b ≤ a) [4, 3, 2, 1] ∧
    List.Pairwise (fun a b : Nat => a ≤ b) [1, 2, 3, 4] := by
  have h := claimC6_thm [1, 11, 21, 31] [1, 2, 3, 4] [4, 3, 2, 1] [1, 2, 3, 4]
    (by rfl) (by rfl) (by decide) (by decide)
  exact h

/-! ### Claim C5 (degenerate distributions) -/

/-- Claim C5, counterexample: a metric with only 3 distinct values — the
3-customer input `threeCustomerFrame`, whose recency column is [1, 11, 21]
and frequency/monetary columns are [3, 2, 1] — does **not** make `pd.qcut`
fail: the interpolated quantile edges of 3 distinct values are pairwise
distinct, the scores are produced (with one of the four bins left empty),
and the whole 3-customer run succeeds. -/
theorem claimC5_counterexample :
    qcutScores [1, 2, 3] rLabels = .ok [4, 3, 1] ∧
    qcutScores [1, 2, 3] fmLabels = .ok [1, 2, 4] ∧
    (perform_rfm_analysis_adv threeCustomerFrame 101).isOk = true ∧
    (okAdvRowsOf (perform_rfm_analysis_adv threeCustomerFrame 101)).map
      (fun row => (row.customer, row.rScore, row.fScore, row.mScore)) =
      [("A", 4, 4, 4), ("B", 3, 2, 2), ("C", 1, 1, 1)] := by
  exact ⟨by rfl, by rfl, by decide, by decide⟩

theorem insertSorted_replicate (n : Nat) (c : Int) :
    insertSorted c (List.replicate n c) = List.replicate (n + 1) c := by
  cases n with
  | zero => rfl
  | succ k =>
    rw [List.replicate_succ]
    unfold insertSorted
    rw [if_pos (le_refl c), ← List.replicate_succ, ← List.replicate_succ]

theorem sortI_replicate (n : Nat) (c : Int) :
    sortI (List.replicate n c) = List.replicate n c := by
  induction n with
  | zero => rfl
  | succ k ih =>
    rw [List.replicate_succ]
    show insertSorted c (sortI (List.replicate k c)) = _
    rw [ih, insertSorted_replicate, ← List.replicate_succ]

theorem getD_replicate (n i : Nat) (c d : Int) (h : i < n) :
    (List.replicate n c).getD i d = c := by
  induction n generalizing i with
  | zero => omega
  | succ k ih =>
    cases i with
    | zero => rfl
    | succ j =>
      rw [List.replicate_succ]
      show (List.replicate k c).getD j d = c
      exact ih j (by omega)

theorem quantile4_replicate (n : Nat) (c : Int) (k : Nat) (hn : 1 ≤ n) (hk : k ≤ 4) :
    quantile4 (List.replicate n c) k = 4 * c := by
  have hlen : (List.replicate n c).length = n := List.length_replicate n c
  have hmul : k * (n - 1) ≤ 4 * (n - 1) := Nat.mul_le_mul_right (n - 1) hk
  have hidx : k * (n - 1) / 4 < n := by omega
  unfold quantile4
  dsimp only
  rw [hlen]
  rw [getD_replicate n _ c 0 hidx]
  by_cases hidx1 : k * (n - 1) / 4 + 1 < n
  · rw [getD_replicate n _ c c hidx1]
    ring
  · rw [List.getD_eq_default _ _ (by rw [hlen]; omega)]
    ring

theorem qcutEdges_replicate (n : Nat) (c : Int) (h : 1 ≤ n) :
    qcutEdges (List.replicate n c) = .error .binEdgesNotUnique := by
  unfold qcutEdges
  dsimp only
  rw [sortI_replicate]
  rw [quantile4_replicate n c 0 h (by omega), quantile4_replicate n c 1 h (by omega),
      quantile4_replicate n c 2 h (by omega), quantile4_replicate n c 3 h (by omega),
      quantile4_replicate n c 4 h (by omega)]
  rw [if_neg]
  simp

/-- Claim C5, amended: `pd.qcut` fails (with the bin-edges
`ValueError`, the code's realisation of the spec's
`DegenerateDistributionError`) exactly when the interpolated quantile edges
collide — in particular whenever a metric column is constant, as in the
spec's own scenario of 3 customers with 4 transactions each, whose
frequency column is [4, 4, 4].  It does **not** fail merely because a
metric has fewer than 4 distinct values (`claimC5_counterexample`): 3
distinct values yield 5 distinct interpolated edges and scoring silently
succeeds with an empty bin. -/
theorem claimC5_amended (n : Nat) (c : Int) (labels : List Nat) (h : 1 ≤ n) :
    qcutScores (List.replicate n c) labels = .error .binEdgesNotUnique := by
  unfold qcutScores
  rw [qcutEdges_replicate n c h, exceptBind_error]

/-- Witness for `claimC5_amended`: the frequency column of the spec's
3-customers-with-4-transactions-each scenario. -/
theorem claimC5_witness :
    1 ≤ 3 ∧
    qcutScores (List.replicate 3 (4 : Int)) fmLabels = .error .binEdgesNotUnique :=
  ⟨by decide, claimC5_amended 3 4 fmLabels (by decide)⟩

/-! ### Claim C10 (permutation invariance of the derived metrics) -/

theorem foldr_max_perm (l1 l2 : List Int) (h : l1.Perm l2) (b : Int) :
    l1.foldr max b = l2.foldr max b := by
  induction h generalizing b with
  | nil => rfl
  | cons x _ ih => simp only [List.foldr_cons]; rw [ih]
  | swap x y l => simp only [List.foldr_cons]; rw [max_left_comm]
  | trans _ _ ih1 ih2 => rw [ih1, ih2]

/-- Claim C10: with the `now` snapshot fixed, the derived Recency,
Frequency and Monetary values of every customer are invariant under any
permutation of the input transaction rows.  (The first-Branch/first-Route
passthrough columns of rfm_ui.py depend on row order and are not covered
by this claim.) -/
theorem claimC10_thm (now : Int) (rows1 rows2 : List Txn) (c : String)
    (h : rows1.Perm rows2) :
    recOf now rows1 c = recOf now rows2 c ∧
    freqOf rows1 c = freqOf rows2 c ∧
    monOf rows1 c = monOf rows2 c := by
  have hp : (rowsFor rows1 c).Perm (rowsFor rows2 c) := h.filter _
  refine ⟨?_, ?_, ?_⟩
  · unfold recOf maxDateOf
    rw [foldr_max_perm _ _ (hp.map _)]
  · exact hp.length_eq
  · exact hp.length_eq

/-- Witness for `claimC10_thm`: swapping the two transactions of customer A
leaves A's metrics unchanged. -/
theorem claimC10_witness :
    recOf 101 [mkTxn "A" "b1" "r1" 100, mkTxn "A" "b2" "r2" 90] "A" =
      recOf 101 [mkTxn "A" "b2" "r2" 90, mkTxn "A" "b1" "r1" 100] "A" ∧
    freqOf [mkTxn "A" "b1" "r1" 100, mkTxn "A" "b2" "r2" 90] "A" =
      freqOf [mkTxn "A" "b2" "r2" 90, mkTxn "A" "b1" "r1" 100] "A" ∧
    monOf [mkTxn "A" "b1" "r1" 100, mkTxn "A" "b2" "r2" 90] "A" =
      monOf [mkTxn "A" "b2" "r2" 90, mkTxn "A" "b1" "r1" 100] "A" :=
  claimC10_thm 101 _ _ "A"
    (List.Perm.swap (mkTxn "A" "b2" "r2" 90) (mkTxn "A" "b1" "r1" 100) [])
